import Mathlib

/-!
Verification of `django_run.py`, a didactic script demonstrating Django
signal behavior and custom class iteration.

The script is shallowly embedded: the `Rectangle` class becomes a Lean
structure whose generator-style `__iter__` is modelled as an explicit
step function on a generator position; the four test functions become
state-passing functions over a `PState` (an abstract database plus the
list of printed lines), returning `Except String Unit` to model Python
exception propagation.  Framework-dependent behavior (whether the
`post_save` callback's write participates in the enclosing transaction,
the current thread identifier, injected failures of database writes) is
collected in an `Env` record, since the script itself treats the
framework as an opaque collaborator.
-/

/-- A Python dict with string keys and integer values, as yielded by
`Rectangle.__iter__` (each yielded dict has a single key). -/
abbrev Mapping := List (String × Int)

/-- The `Rectangle` class: `__init__(self, length: int, width: int)`
stores the two attributes. -/
structure Rectangle where
  length : Int
  width : Int
deriving DecidableEq

/-- Position of a generator created by `Rectangle.__iter__`: before the
first `yield`, between the two `yield`s, or exhausted. -/
inductive GenPos where
  | start
  | afterLength
  | done
deriving DecidableEq

/-- One resumption of the generator of `Rectangle.__iter__`.  The state
carries the rectangle the generator closes over; the body only reads
`self.length` and `self.width`, so the rectangle component is returned
unchanged. -/
def Rectangle.genStep : Rectangle × GenPos → Option (Mapping × (Rectangle × GenPos))
  | (r, GenPos.start) => some ([("length", r.length)], (r, GenPos.afterLength))
  | (r, GenPos.afterLength) => some ([("width", r.width)], (r, GenPos.done))
  | (_, GenPos.done) => none

/-- The remaining items produced by a generator of `Rectangle.__iter__`
from a given position. -/
def Rectangle.iterFrom : Rectangle × GenPos → List Mapping
  | (r, GenPos.start) => [[("length", r.length)], [("width", r.width)]]
  | (r, GenPos.afterLength) => [[("width", r.width)]]
  | (_, GenPos.done) => []

/-- `iterFrom` is the unfolding of `genStep`: the list-valued view agrees
with the step-by-step generator semantics. -/
theorem Rectangle.iterFrom_eq_genStep (g : Rectangle × GenPos) :
    Rectangle.iterFrom g =
      match Rectangle.genStep g with
      | none => []
      | some (m, g2) => m :: Rectangle.iterFrom g2 := by
  rcases g with ⟨r, p⟩
  cases p <;> rfl

/-- `iter(rect)`: calling `__iter__` creates a fresh generator at the
start position; this is the full sequence it produces. -/
def Rectangle.iter (r : Rectangle) : List Mapping :=
  Rectangle.iterFrom (r, GenPos.start)

/-- Advance a generator by one resumption (no-op once exhausted). -/
def Rectangle.genAdvance (g : Rectangle × GenPos) : Rectangle × GenPos :=
  match Rectangle.genStep g with
  | none => g
  | some (_, g2) => g2

/-- Advance a generator by `n` resumptions. -/
def Rectangle.genAdvanceN : Rectangle × GenPos → Nat → Rectangle × GenPos
  | g, 0 => g
  | g, n + 1 => Rectangle.genAdvanceN (Rectangle.genAdvance g) n

/-! ## The script's state and environment -/

/-- The external relational store, abstracted: the usernames of existing
`User` rows and the owner usernames of existing `Profile` rows. -/
structure DB where
  users : List String
  profiles : List String
deriving DecidableEq

/-- One printed item: a text line, or a dict printed by
`test_rectangle_iteration`'s loop body. -/
inductive OutLine where
  | text : String → OutLine
  | dict : Mapping → OutLine
deriving DecidableEq

/-- Program state threaded through the script: database plus everything
printed so far. -/
structure PState where
  db : DB
  output : List OutLine
deriving DecidableEq

/-- Framework-dependent parameters the script observes but does not
control: the thread identifier `threading.get_ident()` reports, whether
the `post_save` callback's write participates in the enclosing
transaction, and injected failures of the two database writes (`none`
means the write succeeds). -/
structure Env where
  threadId : Nat
  signalInTxn : Bool
  userCreateFault : Option String
  profileCreateFault : Option String
deriving DecidableEq

/-- Append one printed item. -/
def pr (s : PState) (l : OutLine) : PState :=
  { s with output := s.output ++ [l] }

/-- `print(m)` for a plain string. -/
def prt (s : PState) (m : String) : PState :=
  pr s (OutLine.text m)

/-! ## The three `post_save` receivers, in registration order -/

/-- Receiver 1: prints a start marker, sleeps (time is not modelled),
prints an end marker. -/
def slow_signal_handler (s : PState) : PState :=
  prt (prt s "[Signal] Started processing...") "[Signal] Finished processing."

/-- Receiver 2: prints the thread identifier observed inside the
callback. -/
def thread_check (env : Env) (s : PState) : PState :=
  prt s ("[Signal] Thread ID: " ++ toString env.threadId)

/-- Receiver 3: `Profile.objects.create(user=instance)` then a print; an
injected fault makes the create raise, in which case nothing is written
or printed. -/
def create_profile (env : Env) (u : String) (s : PState) :
    Except String Unit × PState :=
  match env.profileCreateFault with
  | some e => (Except.error e, s)
  | none =>
    let s := { s with db := { s.db with profiles := u :: s.db.profiles } }
    (Except.ok (), prt s "[Signal] Profile created inside same transaction")

/-- The uniqueness-violation message raised by the data layer when a
username already exists. -/
def integrityErr (u : String) : String :=
  "IntegrityError: duplicate username " ++ u

/-- `User.objects.create(username=u)`: raises on a duplicate username or
an injected fault; on success inserts the row and fires the three
`post_save` receivers synchronously, in registration order, propagating
any receiver exception. -/
def userCreate (env : Env) (u : String) (s : PState) :
    Except String Unit × PState :=
  if u ∈ s.db.users then (Except.error (integrityErr u), s)
  else
    match env.userCreateFault with
    | some e => (Except.error e, s)
    | none =>
      let s := { s with db := { s.db with users := u :: s.db.users } }
      let s := slow_signal_handler s
      let s := thread_check env s
      create_profile env u s

/-! ## The four test functions -/

/-- Test 1: create a user; the success line prints only if the create
(signals included) returned without raising. -/
def test_synchronous_signal (env : Env) (s : PState) :
    Except String Unit × PState :=
  let s := prt s "\n=== Test 1: Synchronous Signal ==="
  let s := prt s "Creating user..."
  match userCreate env "sync_test_user" s with
  | (Except.error e, s) => (Except.error e, s)
  | (Except.ok _, s) =>
    (Except.ok (), prt s "User created successfully — after signal completed.\n")

/-- Test 2: print the caller's thread identifier, create a user, print
the closing remark. -/
def test_thread_signal (env : Env) (s : PState) :
    Except String Unit × PState :=
  let s := prt s "\n=== Test 2: Thread Check ==="
  let s := prt s ("[Main] Thread ID: " ++ toString env.threadId)
  match userCreate env "thread_test_user" s with
  | (Except.error e, s) => (Except.error e, s)
  | (Except.ok _, s) =>
    (Except.ok (), prt s "Both thread IDs should match — same thread.\n")

/-- Effect of `transaction.atomic` unwinding after an exception: writes
made inside the block are discarded; whether the callback's `Profile`
write is among them depends on the framework parameter
`env.signalInTxn`. -/
def rollbackDB (env : Env) (snapshot current : DB) : DB :=
  if env.signalInTxn then snapshot
  else { users := snapshot.users, profiles := current.profiles }

/-- Test 3: inside `transaction.atomic()`, create a user and then
unconditionally raise; any exception leaving the block rolls the
transaction back and is caught by the `except Exception` handler, which
prints it; the profile count and an interpretation line always follow. -/
def test_transaction_signal (env : Env) (s : PState) :
    Except String Unit × PState :=
  let s := prt s "\n=== Test 3: Transaction Behavior ==="
  let snap := s.db
  let body := userCreate env "rollback_user" s
  let err :=
    match body.1 with
    | Except.error e => e
    | Except.ok _ => "Force rollback after signal"
  let s := body.2
  let s := { s with db := rollbackDB env snap s.db }
  let s := prt s ("[Main] Exception caught: " ++ err)
  let s := prt s ("Profiles in DB after rollback: " ++ toString s.db.profiles.length)
  let s := prt s "If 0 → Signal ran in same transaction.\n"
  (Except.ok (), s)

/-- Test 4: construct `Rectangle(10, 5)`, print each item the iteration
yields, then print a blank line. -/
def test_rectangle_iteration (s : PState) : Except String Unit × PState :=
  let s := prt s "\n=== Test 4: Custom Rectangle Class ==="
  let rect := Rectangle.mk 10 5
  let s := (Rectangle.iter rect).foldl (fun t m => pr t (OutLine.dict m)) s
  (Except.ok (), prt s "")

/-- `run_all_tests`: the four tests in order, each run only if the
previous one returned without raising; no exception handling between
them. -/
def run_all_tests (env : Env) (s : PState) : Except String Unit × PState :=
  match test_synchronous_signal env s with
  | (Except.error e, s) => (Except.error e, s)
  | (Except.ok _, s) =>
    match test_thread_signal env s with
    | (Except.error e, s) => (Except.error e, s)
    | (Except.ok _, s) =>
      match test_transaction_signal env s with
      | (Except.error e, s) => (Except.error e, s)
      | (Except.ok _, s) =>
        match test_rectangle_iteration s with
        | (Except.error e, s) => (Except.error e, s)
        | (Except.ok _, s) => (Except.ok (), s)

/-- The `if __name__ == "__main__"` block: four usage prints, nothing
else. -/
def main_usage (s : PState) : PState :=
  let s := prt s ">>> Django Signals and Python Custom Class Tests <<<"
  let s := prt s "Run these functions individually inside Django shell:\n"
  let s := prt s "    from yourapp.django_signal_tests import run_all_tests"
  prt s "    run_all_tests()\n"

/-- The four lines the three receivers print during one successful
`User.objects.create`. -/
def signalLines (env : Env) : List OutLine :=
  [OutLine.text "[Signal] Started processing...",
   OutLine.text "[Signal] Finished processing.",
   OutLine.text ("[Signal] Thread ID: " ++ toString env.threadId),
   OutLine.text "[Signal] Profile created inside same transaction"]

/-! ## Claims about the Rectangle iteration -/

/-- C1: for every pair of integers L and W, iterating a `Rectangle`
constructed with length L and width W yields exactly two mappings, in
order the length entry then the width entry, with no validation
rejecting zero or negative values; in particular `Rectangle(10, 5)`
iterated yields the length-10 and width-5 entries. -/
theorem rectangle_iter_two_mappings :
    (∀ L W : Int,
      Rectangle.iter (Rectangle.mk L W) = [[("length", L)], [("width", W)]]) ∧
    Rectangle.iter (Rectangle.mk 10 5) = [[("length", (10 : Int))], [("width", (5 : Int))]] := by
  constructor
  · intro L W
    rfl
  · rfl

/-- C4: each invocation of the iteration protocol begins a fresh finite
sequence: two iterations of the same instance yield equal sequences,
each of length two, and an exhausted generator produces nothing
further. -/
theorem rectangle_iter_restartable (L W : Int) :
    Rectangle.iter (Rectangle.mk L W) = Rectangle.iter (Rectangle.mk L W) ∧
    (Rectangle.iter (Rectangle.mk L W)).length = 2 ∧
    Rectangle.genStep (Rectangle.mk L W, GenPos.done) = none ∧
    Rectangle.iterFrom (Rectangle.mk L W, GenPos.done) = [] := by
  exact ⟨rfl, rfl, rfl, rfl⟩

/-- C5: a `Rectangle` holds exactly the two integer attributes it was
constructed with, and two rectangles with equal length and width are
equal. -/
theorem rectangle_value_semantics :
    (∀ L W : Int, (Rectangle.mk L W).length = L ∧ (Rectangle.mk L W).width = W) ∧
    (∀ r₁ r₂ : Rectangle, r₁.length = r₂.length → r₁.width = r₂.width → r₁ = r₂) := by
  refine ⟨fun L W => ⟨rfl, rfl⟩, fun r₁ r₂ h₁ h₂ => ?_⟩
  cases r₁
  cases r₂
  simp_all

/-- Witness for C5 at a concrete pair of rectangles. -/
theorem rectangle_value_semantics_witness :
    Rectangle.mk 10 5 = Rectangle.mk 10 5 :=
  rectangle_value_semantics.2 (Rectangle.mk 10 5) (Rectangle.mk 10 5) rfl rfl

/-- Advancing a generator never changes the rectangle it closes over. -/
theorem Rectangle.genAdvance_fst (g : Rectangle × GenPos) :
    (Rectangle.genAdvance g).1 = g.1 := by
  rcases g with ⟨r, p⟩
  cases p <;> rfl

/-- C9: iterating a `Rectangle` does not mutate it: after any number of
resumptions of a generator over a rectangle built with length L and
width W, from any generator position, the rectangle still has length L
and width W. -/
theorem rectangle_iter_no_mutation (L W : Int) (p : GenPos) (n : Nat) :
    (Rectangle.genAdvanceN (Rectangle.mk L W, p) n).1.length = L ∧
    (Rectangle.genAdvanceN (Rectangle.mk L W, p) n).1.width = W := by
  suffices h : ∀ (n : Nat) (g : Rectangle × GenPos),
      (Rectangle.genAdvanceN g n).1 = g.1 by
    rw [h]
    exact ⟨rfl, rfl⟩
  intro n
  induction n with
  | zero => intro g; rfl
  | succ k ih =>
    intro g
    show (Rectangle.genAdvanceN (Rectangle.genAdvance g) k).1 = g.1
    rw [ih, Rectangle.genAdvance_fst]

/-! ## Trace lemmas for the database operations -/

/-- A duplicate username makes `User.objects.create` raise before any
receiver runs. -/
theorem userCreate_dup (env : Env) (u : String) (s : PState)
    (h : u ∈ s.db.users) :
    userCreate env u s = (Except.error (integrityErr u), s) := by
  simp [userCreate, h]

/-- An injected failure of the user insert raises before any receiver
runs. -/
theorem userCreate_fault (env : Env) (u : String) (s : PState) (e : String)
    (h : u ∉ s.db.users) (hf : env.userCreateFault = some e) :
    userCreate env u s = (Except.error e, s) := by
  simp [userCreate, h, hf]

/-- A successful `User.objects.create`: the row is inserted, the three
receivers run in registration order, and the callback's `Profile` write
lands. -/
theorem userCreate_ok_eq (env : Env) (u : String) (s : PState)
    (h1 : env.userCreateFault = none) (h2 : env.profileCreateFault = none)
    (h3 : u ∉ s.db.users) :
    userCreate env u s =
      (Except.ok (),
       ⟨⟨u :: s.db.users, u :: s.db.profiles⟩,
        s.output ++ signalLines env⟩) := by
  simp [userCreate, h1, h2, h3, slow_signal_handler, thread_check,
    create_profile, prt, pr, signalLines]

/-- A `User.objects.create` whose `create_profile` receiver raises: the
row is inserted and the first two receivers print, then the exception
propagates out of the create with no `Profile` written. -/
theorem userCreate_profileFault (env : Env) (u : String) (s : PState) (e : String)
    (h : u ∉ s.db.users) (h1 : env.userCreateFault = none)
    (hp : env.profileCreateFault = some e) :
    userCreate env u s =
      (Except.error e,
       ⟨⟨u :: s.db.users, s.db.profiles⟩,
        s.output ++
          [OutLine.text "[Signal] Started processing...",
           OutLine.text "[Signal] Finished processing.",
           OutLine.text ("[Signal] Thread ID: " ++ toString env.threadId)]⟩) := by
  simp [userCreate, h, h1, hp, slow_signal_handler, thread_check,
    create_profile, prt, pr]

/-! ## Trace lemmas for the test functions -/

/-- Successful run of Test 1. -/
theorem test_synchronous_signal_ok (env : Env) (s : PState)
    (h1 : env.userCreateFault = none) (h2 : env.profileCreateFault = none)
    (h3 : "sync_test_user" ∉ s.db.users) :
    test_synchronous_signal env s =
      (Except.ok (),
       ⟨⟨"sync_test_user" :: s.db.users, "sync_test_user" :: s.db.profiles⟩,
        s.output ++
          [OutLine.text "\n=== Test 1: Synchronous Signal ===",
           OutLine.text "Creating user..."] ++ signalLines env ++
          [OutLine.text "User created successfully — after signal completed.\n"]⟩) := by
  simp [test_synchronous_signal, userCreate_ok_eq, h1, h2, h3, prt, pr,
    signalLines]

/-- Successful run of Test 2. -/
theorem test_thread_signal_ok (env : Env) (s : PState)
    (h1 : env.userCreateFault = none) (h2 : env.profileCreateFault = none)
    (h3 : "thread_test_user" ∉ s.db.users) :
    test_thread_signal env s =
      (Except.ok (),
       ⟨⟨"thread_test_user" :: s.db.users, "thread_test_user" :: s.db.profiles⟩,
        s.output ++
          [OutLine.text "\n=== Test 2: Thread Check ===",
           OutLine.text ("[Main] Thread ID: " ++ toString env.threadId)] ++
          signalLines env ++
          [OutLine.text "Both thread IDs should match — same thread.\n"]⟩) := by
  simp [test_thread_signal, userCreate_ok_eq, h1, h2, h3, prt, pr,
    signalLines]

/-- Run of Test 3 with no injected fault: the user insert succeeds, all
receivers fire, the forced exception rolls the transaction back and is
caught, and the closing prints report the resulting profile count. -/
theorem test_transaction_signal_ok (env : Env) (s : PState)
    (h1 : env.userCreateFault = none) (h2 : env.profileCreateFault = none)
    (h3 : "rollback_user" ∉ s.db.users) :
    test_transaction_signal env s =
      (Except.ok (),
       ⟨⟨s.db.users,
         if env.signalInTxn then s.db.profiles else "rollback_user" :: s.db.profiles⟩,
        s.output ++ [OutLine.text "\n=== Test 3: Transaction Behavior ==="] ++
          signalLines env ++
          [OutLine.text "[Main] Exception caught: Force rollback after signal",
           OutLine.text ("Profiles in DB after rollback: " ++
             toString (if env.signalInTxn then s.db.profiles.length
               else s.db.profiles.length + 1)),
           OutLine.text "If 0 → Signal ran in same transaction.\n"]⟩) := by
  cases hsig : env.signalInTxn <;>
    simp [test_transaction_signal, userCreate_ok_eq, h1, h2, h3,
      rollbackDB, hsig, prt, pr, signalLines] <;> rfl

/-- Run of Test 3 when the user insert itself raises: the exception is
caught, the rollback leaves the database as it was, and the closing
prints still happen. -/
theorem test_transaction_signal_userFault (env : Env) (s : PState) (e : String)
    (h3 : "rollback_user" ∉ s.db.users) (hf : env.userCreateFault = some e) :
    test_transaction_signal env s =
      (Except.ok (),
       ⟨s.db,
        s.output ++
          [OutLine.text "\n=== Test 3: Transaction Behavior ===",
           OutLine.text ("[Main] Exception caught: " ++ e),
           OutLine.text ("Profiles in DB after rollback: " ++
             toString s.db.profiles.length),
           OutLine.text "If 0 → Signal ran in same transaction.\n"]⟩) := by
  cases hsig : env.signalInTxn <;>
    simp [test_transaction_signal, userCreate_fault, h3, hf,
      rollbackDB, hsig, prt, pr]

/-- Run of Test 3 when the `create_profile` receiver raises: the
exception escapes the create, is caught by the handler, the rollback
leaves the database as it was, and the closing prints still happen. -/
theorem test_transaction_signal_profileFault (env : Env) (s : PState) (e : String)
    (h3 : "rollback_user" ∉ s.db.users) (h1 : env.userCreateFault = none)
    (hp : env.profileCreateFault = some e) :
    test_transaction_signal env s =
      (Except.ok (),
       ⟨s.db,
        s.output ++
          [OutLine.text "\n=== Test 3: Transaction Behavior ===",
           OutLine.text "[Signal] Started processing...",
           OutLine.text "[Signal] Finished processing.",
           OutLine.text ("[Signal] Thread ID: " ++ toString env.threadId),
           OutLine.text ("[Main] Exception caught: " ++ e),
           OutLine.text ("Profiles in DB after rollback: " ++
             toString s.db.profiles.length),
           OutLine.text "If 0 → Signal ran in same transaction.\n"]⟩) := by
  cases hsig : env.signalInTxn <;>
    simp [test_transaction_signal, userCreate_profileFault, h3, h1, hp,
      rollbackDB, hsig, prt, pr]

/-- Run of Test 4: prints the header, the two yielded dicts, and a blank
line; the database is untouched. -/
theorem test_rectangle_iteration_trace (s : PState) :
    test_rectangle_iteration s =
      (Except.ok (),
       ⟨s.db,
        s.output ++
          [OutLine.text "\n=== Test 4: Custom Rectangle Class ===",
           OutLine.dict [("length", 10)], OutLine.dict [("width", 5)],
           OutLine.text ""]⟩) := by
  simp [test_rectangle_iteration, Rectangle.iter, Rectangle.iterFrom, prt, pr]

/-! ## Claims about the test functions -/

/-- C3: `test_transaction_signal` opens a transactional scope, creates
the primary user record, then unconditionally raises inside the scope;
the error is caught locally and its message printed, and execution
continues so that the dependent-record count and the human-readable
interpretation are always printed afterwards, with no programmatic
pass/fail assertion (the function returns without raising). -/
theorem test_transaction_signal_catches_and_reports (env : Env) (s : PState)
    (h1 : env.userCreateFault = none) (h2 : env.profileCreateFault = none)
    (h3 : "rollback_user" ∉ s.db.users) :
    (test_transaction_signal env s).1 = Except.ok () ∧
    (test_transaction_signal env s).2.output =
      s.output ++ [OutLine.text "\n=== Test 3: Transaction Behavior ==="] ++
        signalLines env ++
        [OutLine.text "[Main] Exception caught: Force rollback after signal",
         OutLine.text ("Profiles in DB after rollback: " ++
           toString (if env.signalInTxn then s.db.profiles.length
             else s.db.profiles.length + 1)),
         OutLine.text "If 0 → Signal ran in same transaction.\n"] := by
  rw [test_transaction_signal_ok env s h1 h2 h3]
  exact ⟨rfl, rfl⟩

/-- Witness for C3 at a concrete environment and empty initial state. -/
theorem test_transaction_signal_catches_and_reports_witness :
    (test_transaction_signal (Env.mk 7 true none none) (PState.mk (DB.mk [] []) [])).1 =
      Except.ok () ∧
    (test_transaction_signal (Env.mk 7 true none none) (PState.mk (DB.mk [] []) [])).2.output =
      ([] : List OutLine) ++ [OutLine.text "\n=== Test 3: Transaction Behavior ==="] ++
        signalLines (Env.mk 7 true none none) ++
        [OutLine.text "[Main] Exception caught: Force rollback after signal",
         OutLine.text ("Profiles in DB after rollback: " ++
           toString (if (Env.mk 7 true none none).signalInTxn then
             (DB.mk [] []).profiles.length else (DB.mk [] []).profiles.length + 1)),
         OutLine.text "If 0 → Signal ran in same transaction.\n"] :=
  test_transaction_signal_catches_and_reports (Env.mk 7 true none none)
    (PState.mk (DB.mk [] []) []) rfl rfl (by simp)

/-- C2: after one run of `test_transaction_signal` from a state with no
profile attributable to the rolled-back user, that count is 0 if and
only if the callback's write participated in the rolled-back
transaction; the script reports it by printing the profile count after
the transactional scope exits. -/
theorem test_transaction_signal_rollback_iff (env : Env) (s : PState)
    (h1 : env.userCreateFault = none) (h2 : env.profileCreateFault = none)
    (h3 : "rollback_user" ∉ s.db.users)
    (h4 : s.db.profiles.count "rollback_user" = 0) :
    ((test_transaction_signal env s).2.db.profiles.count "rollback_user" = 0 ↔
      env.signalInTxn = true) ∧
    OutLine.text ("Profiles in DB after rollback: " ++
        toString (test_transaction_signal env s).2.db.profiles.length) ∈
      (test_transaction_signal env s).2.output := by
  rw [test_transaction_signal_ok env s h1 h2 h3]
  cases hsig : env.signalInTxn <;> simp [hsig, List.count_cons, h4]

/-- Witness for C2 at a concrete environment and empty initial state. -/
theorem test_transaction_signal_rollback_iff_witness :
    ((test_transaction_signal (Env.mk 7 true none none)
        (PState.mk (DB.mk [] []) [])).2.db.profiles.count "rollback_user" = 0 ↔
      (Env.mk 7 true none none).signalInTxn = true) ∧
    OutLine.text ("Profiles in DB after rollback: " ++
        toString (test_transaction_signal (Env.mk 7 true none none)
          (PState.mk (DB.mk [] []) [])).2.db.profiles.length) ∈
      (test_transaction_signal (Env.mk 7 true none none)
        (PState.mk (DB.mk [] []) [])).2.output :=
  test_transaction_signal_rollback_iff (Env.mk 7 true none none)
    (PState.mk (DB.mk [] []) []) rfl rfl (by simp) rfl

/-- C10: the `except Exception` handler in `test_transaction_signal`
catches every exception raised inside the transactional block, not only
the forced one: if the user insert itself raises, or the
`create_profile` receiver raises, the error is likewise caught and
printed, and the function still returns normally and prints the
dependent-record count. -/
theorem test_transaction_signal_catches_every_exception (env : Env) (s : PState)
    (e : String) (h3 : "rollback_user" ∉ s.db.users)
    (hf : env.userCreateFault = some e ∨
      (env.userCreateFault = none ∧ env.profileCreateFault = some e)) :
    (test_transaction_signal env s).1 = Except.ok () ∧
    OutLine.text ("[Main] Exception caught: " ++ e) ∈
      (test_transaction_signal env s).2.output ∧
    OutLine.text ("Profiles in DB after rollback: " ++
        toString (test_transaction_signal env s).2.db.profiles.length) ∈
      (test_transaction_signal env s).2.output := by
  rcases hf with hf | ⟨h1, hp⟩
  · rw [test_transaction_signal_userFault env s e h3 hf]
    simp
  · rw [test_transaction_signal_profileFault env s e h3 h1 hp]
    simp

/-- Witness for C10: an injected failure of the user insert is caught. -/
theorem test_transaction_signal_catches_every_exception_witness :
    (test_transaction_signal (Env.mk 7 true (some "boom") none)
        (PState.mk (DB.mk [] []) [])).1 = Except.ok () ∧
    OutLine.text ("[Main] Exception caught: " ++ "boom") ∈
      (test_transaction_signal (Env.mk 7 true (some "boom") none)
        (PState.mk (DB.mk [] []) [])).2.output ∧
    OutLine.text ("Profiles in DB after rollback: " ++
        toString (test_transaction_signal (Env.mk 7 true (some "boom") none)
          (PState.mk (DB.mk [] []) [])).2.db.profiles.length) ∈
      (test_transaction_signal (Env.mk 7 true (some "boom") none)
        (PState.mk (DB.mk [] []) [])).2.output :=
  test_transaction_signal_catches_every_exception (Env.mk 7 true (some "boom") none)
    (PState.mk (DB.mk [] []) []) "boom" (by simp) (Or.inl rfl)

/-- C7: an error arising in `test_synchronous_signal` — a uniqueness
violation when the username was already used, or any failure of the
user insert — is not caught: it propagates to the caller as the
function's result, and the "created successfully" line is never
printed (the output gains exactly the two pre-create lines). -/
theorem test_synchronous_signal_error_propagates (env : Env) (s : PState) :
    ("sync_test_user" ∈ s.db.users →
      test_synchronous_signal env s =
        (Except.error (integrityErr "sync_test_user"),
         ⟨s.db,
          s.output ++ [OutLine.text "\n=== Test 1: Synchronous Signal ===",
                       OutLine.text "Creating user..."]⟩)) ∧
    (∀ e, env.userCreateFault = some e → "sync_test_user" ∉ s.db.users →
      test_synchronous_signal env s =
        (Except.error e,
         ⟨s.db,
          s.output ++ [OutLine.text "\n=== Test 1: Synchronous Signal ===",
                       OutLine.text "Creating user..."]⟩)) := by
  constructor
  · intro h
    simp [test_synchronous_signal, userCreate_dup, h, prt, pr]
  · intro e hf h
    simp [test_synchronous_signal, userCreate_fault, hf, h, prt, pr]

/-- Witness for C7: a repeated run with the username already present
fails with the uniqueness violation. -/
theorem test_synchronous_signal_error_propagates_witness :
    test_synchronous_signal (Env.mk 7 true none none)
        (PState.mk (DB.mk ["sync_test_user"] []) []) =
      (Except.error (integrityErr "sync_test_user"),
       ⟨DB.mk ["sync_test_user"] [],
        ([] : List OutLine) ++ [OutLine.text "\n=== Test 1: Synchronous Signal ===",
                                OutLine.text "Creating user..."]⟩) :=
  (test_synchronous_signal_error_propagates (Env.mk 7 true none none)
    (PState.mk (DB.mk ["sync_test_user"] []) [])).1 (by simp)

/-- C8: run directly as the main program, the module only prints the
usage instructions naming `run_all_tests`; it runs none of the tests and
creates no records (the database is unchanged). -/
theorem main_usage_only_prints (s : PState) :
    (main_usage s).db = s.db ∧
    (main_usage s).output =
      s.output ++
        [OutLine.text ">>> Django Signals and Python Custom Class Tests <<<",
         OutLine.text "Run these functions individually inside Django shell:\n",
         OutLine.text "    from yourapp.django_signal_tests import run_all_tests",
         OutLine.text "    run_all_tests()\n"] := by
  simp [main_usage, prt, pr]

/-- C6: `run_all_tests` runs exactly the four tests in order — Test 1,
Test 2, Test 3, Test 4 — with no error handling between them: when the
first test raises (here, the uniqueness violation on a reused
username), the later tests never run and the error is the overall
result; when nothing raises, the combined trace contains the four
tests' prints in order. -/
theorem run_all_tests_order (env : Env) (s : PState) :
    ("sync_test_user" ∈ s.db.users →
      run_all_tests env s = test_synchronous_signal env s ∧
      (run_all_tests env s).1 = Except.error (integrityErr "sync_test_user")) ∧
    (env.userCreateFault = none → env.profileCreateFault = none →
     "sync_test_user" ∉ s.db.users → "thread_test_user" ∉ s.db.users →
     "rollback_user" ∉ s.db.users →
      run_all_tests env s =
        (Except.ok (),
         ⟨⟨"thread_test_user" :: "sync_test_user" :: s.db.users,
           if env.signalInTxn then
             "thread_test_user" :: "sync_test_user" :: s.db.profiles
           else
             "rollback_user" :: "thread_test_user" :: "sync_test_user" :: s.db.profiles⟩,
          s.output ++
            [OutLine.text "\n=== Test 1: Synchronous Signal ===",
             OutLine.text "Creating user..."] ++ signalLines env ++
            [OutLine.text "User created successfully — after signal completed.\n",
             OutLine.text "\n=== Test 2: Thread Check ===",
             OutLine.text ("[Main] Thread ID: " ++ toString env.threadId)] ++
            signalLines env ++
            [OutLine.text "Both thread IDs should match — same thread.\n",
             OutLine.text "\n=== Test 3: Transaction Behavior ==="] ++
            signalLines env ++
            [OutLine.text "[Main] Exception caught: Force rollback after signal",
             OutLine.text ("Profiles in DB after rollback: " ++
               toString (if env.signalInTxn then s.db.profiles.length + 2
                 else s.db.profiles.length + 3)),
             OutLine.text "If 0 → Signal ran in same transaction.\n",
             OutLine.text "\n=== Test 4: Custom Rectangle Class ===",
             OutLine.dict [("length", 10)], OutLine.dict [("width", 5)],
             OutLine.text ""]⟩)) := by
  constructor
  · intro h
    have e1 := userCreate_dup env "sync_test_user"
      (prt (prt s "\n=== Test 1: Synchronous Signal ===") "Creating user...") h
    constructor
    · simp [run_all_tests, test_synchronous_signal, e1]
    · simp [run_all_tests, test_synchronous_signal, e1]
  · intro h1 h2 hs ht hr
    have e1 := test_synchronous_signal_ok env s h1 h2 hs
    have ht1 : "thread_test_user" ∉ "sync_test_user" :: s.db.users := by
      intro hmem
      rcases List.mem_cons.mp hmem with h | h
      · exact absurd h (by decide)
      · exact ht h
    have hr2 : "rollback_user" ∉
        "thread_test_user" :: "sync_test_user" :: s.db.users := by
      intro hmem
      rcases List.mem_cons.mp hmem with h | h
      · exact absurd h (by decide)
      · rcases List.mem_cons.mp h with h | h
        · exact absurd h (by decide)
        · exact hr h
    cases hsig : env.signalInTxn <;>
      simp [run_all_tests, test_synchronous_signal_ok, test_thread_signal_ok,
        test_transaction_signal_ok, test_rectangle_iteration_trace,
        h1, h2, hs, ht1, hr2, hsig, signalLines, Nat.add_assoc]

/-- Witness for C6: the happy-path trace from an empty database. -/
theorem run_all_tests_order_witness :
    run_all_tests (Env.mk 7 true none none) (PState.mk (DB.mk [] []) []) =
      (Except.ok (),
       ⟨⟨["thread_test_user", "sync_test_user"],
         if (Env.mk 7 true none none).signalInTxn then
           ["thread_test_user", "sync_test_user"]
         else ["rollback_user", "thread_test_user", "sync_test_user"]⟩,
        ([] : List OutLine) ++
          [OutLine.text "\n=== Test 1: Synchronous Signal ===",
           OutLine.text "Creating user..."] ++
          signalLines (Env.mk 7 true none none) ++
          [OutLine.text "User created successfully — after signal completed.\n",
           OutLine.text "\n=== Test 2: Thread Check ===",
           OutLine.text ("[Main] Thread ID: " ++
             toString (Env.mk 7 true none none).threadId)] ++
          signalLines (Env.mk 7 true none none) ++
          [OutLine.text "Both thread IDs should match — same thread.\n",
           OutLine.text "\n=== Test 3: Transaction Behavior ==="] ++
          signalLines (Env.mk 7 true none none) ++
          [OutLine.text "[Main] Exception caught: Force rollback after signal",
           OutLine.text ("Profiles in DB after rollback: " ++
             toString (if (Env.mk 7 true none none).signalInTxn then 2 else 3)),
           OutLine.text "If 0 → Signal ran in same transaction.\n",
           OutLine.text "\n=== Test 4: Custom Rectangle Class ===",
           OutLine.dict [("length", 10)], OutLine.dict [("width", 5)],
           OutLine.text ""]⟩) :=
  (run_all_tests_order (Env.mk 7 true none none)
      (PState.mk (DB.mk [] []) [])).2 rfl rfl (by simp) (by simp) (by simp)
